import Mathlib

/-!
Shallow embedding of `scraper/cart_scraper.py` (class `AmazonCartScraper`)
from the budget-system repository, together with theorems settling the
frozen claims about it.

Modelling conventions:
* Python floats carrying prices are modelled as `Rat` (the price arithmetic
  performed by the scraper is exact decimal arithmetic on parsed values).
* Python strings are Lean `String`s (a `String` is a wrapped `List Char`).
* The regular expressions used by the code are embedded as specialised
  scanners that reproduce the exact matching semantics of the concrete
  patterns appearing in the source (`ASIN\.(\d+)=([A-Z0-9]{10})` with
  IGNORECASE, `Quantity\.N=(\d+)` case-sensitive, and
  `data-asin="([A-Z0-9]{10})"` case-sensitive) on ASCII input.
* Browser/network effects are modelled by explicit environment values: each
  per-item iteration either raises before the inner single-item lookup
  (`ItemStep.raisesOutside`, the path taken when page creation fails), or
  reaches `_lookup_single_asin`, which itself either swallows a
  timeout/error and returns `none` (`SingleLookupBehavior.raises`) or sees
  a loaded product page (`SingleLookupBehavior.page`).
* `random.uniform(2.0, 5.0)` is modelled by an oracle `rnd : Nat → Rat`;
  the guarantee that its draws lie in `[2, 5]` is the RNG contract and
  appears as a hypothesis where needed.
-/

namespace CartScraper

/-! ### Data model -/

/-- A produced line item (the dict assembled by the scraper per product). -/
structure LineItem where
  asin : String
  title : String
  unit_price : Rat
  quantity : Int
  line_total : Rat
  image_url : Option String
  product_url : String
deriving Repr, DecidableEq

/-- The dict returned by every cart-level entry point:
a dict with keys items, subtotal and item_count. -/
structure CartResult where
  items : List LineItem
  subtotal : Rat
  item_count : Nat
deriving Repr, DecidableEq

/-- Assemble the result dict; `subtotal` is recomputed from the items and
`item_count` is their number, exactly as at each `return` site. -/
def mkCartResult (items : List LineItem) : CartResult :=
  { items := items
    subtotal := (items.map LineItem.line_total).sum
    item_count := items.length }

/-! ### `_parse_price` -/

/-- The character class kept by the cleaning substitution of
`_parse_price` (everything except digits, commas and periods is removed). -/
def keepPriceChar (c : Char) : Bool :=
  c.isDigit || c == ',' || c == '.'

/-- The cleaning substitution of `_parse_price`. -/
def cleanedPrice (s : List Char) : List Char :=
  s.filter keepPriceChar

/-- The comma/period disambiguation step of `_parse_price`. -/
def disambiguate (s : List Char) : List Char :=
  if s.contains ',' && s.contains '.' then s.filter (fun c => c != ',')
  else if s.contains ',' then s.map (fun c => if c == ',' then '.' else c)
  else s

/-- Numeric value of a digit string (most significant first). -/
def digitsVal (l : List Char) : Nat :=
  l.foldl (fun a c => 10 * a + (c.toNat - '0'.toNat)) 0

/-- Python `float(s)` restricted to the alphabet that can reach it here
(digits and periods): succeeds iff `s` contains at most one period and at
least one digit, and is made of digits and periods only. -/
def pyFloat? (s : List Char) : Option Rat :=
  match s.splitOn '.' with
  | [a] =>
    if a ≠ [] ∧ a.all Char.isDigit then some (digitsVal a) else none
  | [a, b] =>
    if (a ++ b) ≠ [] ∧ (a ++ b).all Char.isDigit then
      some ((digitsVal (a ++ b) : Rat) / ((10 : Rat) ^ b.length))
    else none
  | _ => none

/-- `AmazonCartScraper._parse_price`. -/
def parse_price (price_str : String) : Rat :=
  if price_str = "" then 0
  else
    match pyFloat? (disambiguate (cleanedPrice price_str.data)) with
    | some r => r
    | none => 0

/-! ### URL scanners (`_extract_asins_from_cart_url` and fallbacks) -/

/-- Case-insensitive comparison of two characters (ASCII). -/
def lcEq (a b : Char) : Bool := a.toLower == b.toLower

/-- Match a literal pattern case-insensitively at the head of the input;
on success return the remaining input. -/
def matchCI : List Char → List Char → Option (List Char)
  | [], l => some l
  | _ :: _, [] => none
  | p :: ps, c :: cs => if lcEq p c then matchCI ps cs else none

/-- Match a literal pattern case-sensitively at the head of the input;
on success return the remaining input. -/
def matchLit : List Char → List Char → Option (List Char)
  | [], l => some l
  | _ :: _, [] => none
  | p :: ps, c :: cs => if p == c then matchLit ps cs else none

/-- The class `[A-Z0-9]` under `re.IGNORECASE`: ASCII letters and digits. -/
def asinClass (c : Char) : Bool :=
  c.isDigit || c.isUpper || c.isLower

/-- Attempt the pattern `ASIN\.(\d+)=([A-Z0-9]{10})` (IGNORECASE) at the
head of the input; on success return the two captures and the rest of the
input after the match.  The greedy `\d+` needs no backtracking because a
digit is never `=`. -/
def matchAsinAt (l : List Char) : Option ((List Char × List Char) × List Char) :=
  match matchCI "ASIN.".data l with
  | none => none
  | some r1 =>
    let (num, r2) := r1.span Char.isDigit
    if num = [] then none
    else
      match r2 with
      | '=' :: r3 =>
        let asin := r3.take 10
        if asin.length = 10 ∧ asin.all asinClass then some ((num, asin), r3.drop 10)
        else none
      | _ => none

/-- Left-to-right non-overlapping scan for the `ASIN.N=` pattern, as
`re.findall` performs it.  The fuel starts at the input length; every step
consumes at least one character, so the fuel never runs out before the
input is exhausted. -/
def scanAsinsAux : Nat → List Char → List (List Char × List Char)
  | 0, _ => []
  | _, [] => []
  | fuel + 1, c :: rest =>
    match matchAsinAt (c :: rest) with
    | some (pair, r) => pair :: scanAsinsAux fuel r
    | none => scanAsinsAux fuel rest

/-- The IGNORECASE findall of the `ASIN.N=` pattern over the whole URL.
The fallback pattern used in the error-page and timeout branches (the same
pattern with only the identifier captured) matches exactly the same
substrings, so the same scanner embeds both. -/
def scanAsins (l : List Char) : List (List Char × List Char) :=
  scanAsinsAux l.length l

/-- The case-sensitive search for the indexed quantity parameter: find
the first position where the literal pattern followed by at least one digit
matches, and return the value of the maximal digit run. -/
def findQtyAux (pat : List Char) : List Char → Option Nat
  | [] => none
  | c :: cs =>
    match matchLit pat (c :: cs) with
    | some r =>
      let d := (r.span Char.isDigit).1
      if d = [] then findQtyAux pat cs else some (digitsVal d)
    | none => findQtyAux pat cs

/-- Search for `Quantity.<num>=(\d+)` in the URL (case-sensitive). -/
def findQty (num : List Char) (l : List Char) : Option Nat :=
  findQtyAux ("Quantity.".data ++ num ++ ['=']) l

/-- Python `str.upper()` on the ASCII alphabet the scanners capture. -/
def upperStr (s : String) : String :=
  ⟨s.data.map Char.toUpper⟩

/-- `d[k] = v` on an insertion-ordered dict modelled as an association
list: an existing key keeps its position and takes the new value. -/
def upsert (k : String) (v : Int) : List (String × Int) → List (String × Int)
  | [] => [(k, v)]
  | (k', v') :: rest =>
    if k' = k then (k, v) :: rest else (k', v') :: upsert k v rest

/-- One iteration of the `for num, asin in asin_matches` loop of
`_extract_asins_from_cart_url`: uppercase the captured identifier, search
the URL for the correspondingly indexed quantity (defaulting to 1 when the
search fails), and store the pair. -/
def extractStep (cart_url : String) (acc : List (String × Int))
    (p : List Char × List Char) : List (String × Int) :=
  let a := upperStr ⟨p.2⟩
  let qty : Int :=
    match findQty p.1 cart_url.data with
    | some q => (q : Int)
    | none => 1
  upsert a qty acc

/-- `AmazonCartScraper._extract_asins_from_cart_url`. -/
def extract_asins_from_cart_url (cart_url : String) : List (String × Int) :=
  (scanAsins cart_url.data).foldl (extractStep cart_url) []

/-- The uppercased duplicate-preserving identifier list produced by the
fallback IGNORECASE findall over the URL followed by uppercasing of every
captured identifier. -/
def fallbackAsins (cart_url : String) : List String :=
  (scanAsins cart_url.data).map (fun p => upperStr ⟨p.2⟩)

/-- Attempt the pattern `data-asin="([A-Z0-9]{10})"` (case-sensitive) at
the head of the input. -/
def matchDataAsinAt (l : List Char) : Option (List Char × List Char) :=
  match matchLit "data-asin=\"".data l with
  | none => none
  | some r =>
    let asin := r.take 10
    if asin.length = 10 ∧ asin.all (fun c => c.isDigit || c.isUpper) then
      match r.drop 10 with
      | '"' :: rest => some (asin, rest)
      | _ => none
    else none

/-- Scan for every `data-asin="..."` occurrence in the page HTML. -/
def scanDataAsinAux : Nat → List Char → List String
  | 0, _ => []
  | _, [] => []
  | fuel + 1, c :: rest =>
    match matchDataAsinAt (c :: rest) with
    | some (a, r) => (⟨a⟩ : String) :: scanDataAsinAux fuel r
    | none => scanDataAsinAux fuel rest

/-- The findall of the quoted data-asin attribute pattern over the HTML. -/
def scanDataAsin (l : List Char) : List String :=
  scanDataAsinAux l.length l

/-- Python `pat in s` substring test. -/
def listInfix (pat : List Char) : List Char → Bool
  | [] => (matchLit pat []).isSome
  | c :: cs => (matchLit pat (c :: cs)).isSome || listInfix pat cs

/-! ### Field extraction helpers -/

/-- Python `str.strip()` on ASCII whitespace. -/
def pyStrip (s : String) : String :=
  ⟨((s.data.dropWhile Char.isWhitespace).reverse.dropWhile Char.isWhitespace).reverse⟩

/-- Walk the ordered price-selector results; the first selector that
resolves to an element whose text parses to a price `> 0` wins, otherwise
the price falls back to `0`.  (`none` = selector matched no element or the
query raised, both of which `continue` the loop.) -/
def firstAcceptedPrice : List (Option String) → Rat
  | [] => 0
  | none :: rest => firstAcceptedPrice rest
  | some t :: rest =>
    let pr := parse_price t
    if 0 < pr then pr else firstAcceptedPrice rest

/-- Python truthiness of an optional string: `None` and `""` are falsy. -/
def truthyOpt : Option String → Option String
  | some s => if s = "" then none else some s
  | none => none

/-! ### `_lookup_single_asin` -/

/-- Observable content of a loaded product page: the `#productTitle` text
(if the element exists), the per-selector price texts in source order, and
the image `src`. -/
structure ProductPage where
  titleText : Option String
  priceTexts : List (Option String)
  imageSrc : Option String

/-- Behaviour of one `_lookup_single_asin` call: either an internal
timeout/exception (caught inside the function, which then returns `None`),
or a loaded page. -/
inductive SingleLookupBehavior where
  | raises
  | page (p : ProductPage)

/-- `AmazonCartScraper._lookup_single_asin`: on success the item carries
`quantity = 1` and `line_total = unit_price`; on timeout or any other
internal error the function swallows the exception and returns `None`. -/
def lookup_single_asin (asin : String) (b : SingleLookupBehavior) : Option LineItem :=
  match b with
  | .raises => none
  | .page p =>
    let price := firstAcceptedPrice p.priceTexts
    some
      { asin := asin
        title :=
          match p.titleText with
          | some t => ⟨(pyStrip t).data.take 200⟩
          | none => "Product " ++ asin
        unit_price := price
        quantity := 1
        line_total := price
        image_url := p.imageSrc
        product_url := "https://www.amazon.com/dp/" ++ asin }

/-- The minimal item appended when an exception reaches the per-item
handler in `lookup_asins` / `_lookup_asins_with_quantities`. -/
def placeholderItem (asin : String) (qty : Int) : LineItem :=
  { asin := asin
    title := "Product " ++ asin
    unit_price := 0
    quantity := qty
    line_total := 0
    image_url := none
    product_url := "https://www.amazon.com/dp/" ++ asin }

/-! ### Per-item batch loops -/

/-- Behaviour of one iteration of a per-item loop: either an exception is
raised before/around the inner lookup (page creation failing) and reaches
the `except` handler, or the iteration reaches `_lookup_single_asin`. -/
inductive ItemStep where
  | raisesOutside
  | runs (b : SingleLookupBehavior)

/-- One iteration of the `lookup_asins` loop in front of the already
computed tail of the walk: an exception reaching the handler appends the
placeholder and skips the sleep; an iteration reaching the inner lookup
appends the returned item (if any) and then sleeps the inter-request delay
(the sleep sits inside the `try`, after the lookup, so it runs whether the
lookup returned an item or `None`). -/
def lookupStep (asin : String) (st : ItemStep) (delay : Rat)
    (tail : List LineItem × List Rat) : List LineItem × List Rat :=
  match st with
  | .raisesOutside => (placeholderItem asin 1 :: tail.1, tail.2)
  | .runs b =>
    match lookup_single_asin asin b with
    | some it => (it :: tail.1, delay :: tail.2)
    | none => (tail.1, delay :: tail.2)

/-- The body of the `lookup_asins` loop.  Returns the collected items and
the list of inter-request delays actually slept. -/
def lookupAsinsAux (env : Nat → ItemStep) (rnd : Nat → Rat) :
    Nat → List String → List LineItem × List Rat
  | _, [] => ([], [])
  | i, asin :: rest =>
    lookupStep asin (env i) (rnd i) (lookupAsinsAux env rnd (i + 1) rest)

/-- `AmazonCartScraper.lookup_asins`: processes `asins[:10]`, one fresh
page per identifier; the result also exposes the slept delays. -/
def lookup_asins (env : Nat → ItemStep) (rnd : Nat → Rat) (asins : List String) :
    CartResult × List Rat :=
  let r := lookupAsinsAux env rnd 0 (asins.take 10)
  (mkCartResult r.1, r.2)

/-- One iteration of the `_lookup_asins_with_quantities` loop: like
`lookupStep`, but the placeholder carries the requested quantity and a
successful item has its quantity overwritten with the requested one and
its line total recomputed. -/
def lookupQtyStep (asin : String) (qty : Int) (st : ItemStep) (delay : Rat)
    (tail : List LineItem × List Rat) : List LineItem × List Rat :=
  match st with
  | .raisesOutside => (placeholderItem asin qty :: tail.1, tail.2)
  | .runs b =>
    match lookup_single_asin asin b with
    | some it =>
      ({ it with quantity := qty, line_total := it.unit_price * (qty : Rat) } :: tail.1,
        delay :: tail.2)
    | none => (tail.1, delay :: tail.2)

/-- The body of the `_lookup_asins_with_quantities` loop (no batch
limit). -/
def lookupQtyAux (env : Nat → ItemStep) (rnd : Nat → Rat) :
    Nat → List (String × Int) → List LineItem × List Rat
  | _, [] => ([], [])
  | i, (asin, qty) :: rest =>
    lookupQtyStep asin qty (env i) (rnd i) (lookupQtyAux env rnd (i + 1) rest)

/-- `AmazonCartScraper._lookup_asins_with_quantities` over the
insertion-ordered identifier-to-quantity map. -/
def lookup_asins_with_quantities (env : Nat → ItemStep) (rnd : Nat → Rat)
    (asins_qty : List (String × Int)) : CartResult × List Rat :=
  let r := lookupQtyAux env rnd 0 asins_qty
  (mkCartResult r.1, r.2)

/-! ### `_extract_cart_item` -/

/-- Observable content of one cart line element: the two identifier
attributes and the per-selector title / price / quantity values in source
order (`none` = element missing or the query raised, both `continue`). -/
structure CartElement where
  dataAsin : Option String
  dataItemId : Option String
  titleTexts : List (Option String)
  priceTexts : List (Option String)
  qtyVals : List (Option String)
  imageSrc : Option String

/-- The first segment of a composite id: everything before the first pipe
delimiter (the whole string when no delimiter is present). -/
def pySplitFirst (sep : Char) (s : String) : String :=
  ⟨s.data.takeWhile (fun c => c != sep)⟩

/-- The identifier resolution of `_extract_cart_item`: `data-asin` when
truthy, else the first segment of a truthy `data-item-id`; a falsy final
value discards the element. -/
def elementAsin (e : CartElement) : Option String :=
  let first :=
    match truthyOpt e.dataAsin with
    | some a => some a
    | none =>
      match truthyOpt e.dataItemId with
      | some iid => some (pySplitFirst '|' iid)
      | none => none
  truthyOpt first

/-- Title selector walk: first element whose text is non-empty and longer
than 3 characters wins; the value is stripped and truncated to 200. -/
def firstTitle : List (Option String) → Option String
  | [] => none
  | none :: rest => firstTitle rest
  | some t :: rest =>
    if t ≠ "" ∧ t.length > 3 then some ⟨(pyStrip t).data.take 200⟩
    else firstTitle rest

/-- The quantity text conversion: drop every non-digit; an empty remainder
is replaced by 1 before integer conversion. -/
def pyQtyOf (v : String) : Nat :=
  let d := v.data.filter Char.isDigit
  if d = [] then 1 else digitsVal d

/-- Quantity selector walk: first truthy value whose digit content parses
to a positive integer wins; otherwise the quantity stays `1`. -/
def firstQty : List (Option String) → Nat
  | [] => 1
  | none :: rest => firstQty rest
  | some v :: rest =>
    if v = "" then firstQty rest
    else
      let q := pyQtyOf v
      if 0 < q then q else firstQty rest

/-- `AmazonCartScraper._extract_cart_item`. -/
def extract_cart_item (e : CartElement) : Option LineItem :=
  match elementAsin e with
  | none => none
  | some asin =>
    let price := firstAcceptedPrice e.priceTexts
    let qty := firstQty e.qtyVals
    some
      { asin := asin
        title :=
          match firstTitle e.titleTexts with
          | some t => t
          | none => "Product " ++ asin
        unit_price := price
        quantity := (qty : Int)
        line_total := price * (qty : Rat)
        image_url := e.imageSrc
        product_url := "https://www.amazon.com/dp/" ++ asin }

/-! ### `scrape_cart_url` -/

/-- Behaviour of the page-scrape path of `scrape_cart_url`: page creation
fails, navigation times out, some other exception is raised, or the page
loads with the given HTML and the given `query_selector_all` results for
the four item selectors in source order. -/
inductive NavOutcome where
  | createPageFails
  | timeout
  | raises
  | loaded (html : String) (sels : List (List CartElement))

/-- The item-selector loop: the first selector returning a non-empty
element list wins. -/
def firstNonempty : List (List CartElement) → List CartElement
  | [] => []
  | s :: rest => if s.isEmpty then firstNonempty rest else s

/-- `AmazonCartScraper.scrape_cart_url`.  `setOrder` models the arbitrary
iteration order of `list(set(asin_matches))`; an `.error` result models an
exception propagating to the caller. -/
def scrape_cart_url (nav : NavOutcome) (env : Nat → ItemStep) (rnd : Nat → Rat)
    (setOrder : List String → List String) (cart_url : String) :
    Except String CartResult :=
  let m := extract_asins_from_cart_url cart_url
  if m ≠ [] then .ok (lookup_asins_with_quantities env rnd m).1
  else
    match nav with
    | .createPageFails => .error "Failed to initialize browser"
    | .raises => .error "Error scraping cart"
    | .timeout =>
      let all := fallbackAsins cart_url
      if all ≠ [] then .ok (lookup_asins env rnd all).1
      else .error "Cart page load timeout"
    | .loaded html sels =>
      if listInfix "Something went wrong".data html.data || decide (html.data.length < 5000) then
        let all := fallbackAsins cart_url
        if all ≠ [] then .ok (lookup_asins env rnd all).1
        else .ok (mkCartResult [])
      else
        let cartItems := firstNonempty sels
        if cartItems.isEmpty then
          let embedded := scanDataAsin html.data
          if embedded ≠ [] then .ok (lookup_asins env rnd (setOrder embedded)).1
          else .ok (mkCartResult [])
        else
          let items := (cartItems.filterMap extract_cart_item).filter (fun it => it.asin ≠ "")
          .ok (mkCartResult items)

/-! ### `close` -/

/-- The session references held by the scraper object that `close` reads:
open page handles, the context, the engine handle (`self.browser`) and the
driver (`self.playwright`). -/
structure ScraperState where
  pages : Nat
  contextOpen : Bool
  browserOpen : Bool
  playwrightOn : Bool
deriving Repr, DecidableEq

/-- Whether the two teardown calls raise when invoked. -/
structure TeardownEnv where
  browserCloseRaises : Bool
  playwrightStopRaises : Bool
deriving Repr, DecidableEq

/-- `AmazonCartScraper.close`: `if self.browser: await self.browser.close();
self.browser = None`, then the same for `self.playwright` — with no
`try`/`except`, so a raising teardown call propagates (second component
`some msg`) and leaves the corresponding reference set.  Pages and the
context are not touched. -/
def close (env : TeardownEnv) (s : ScraperState) : ScraperState × Option String :=
  if s.browserOpen then
    if env.browserCloseRaises then (s, some "browser.close failed")
    else
      let s1 := { s with browserOpen := false }
      if s1.playwrightOn then
        if env.playwrightStopRaises then (s1, some "playwright.stop failed")
        else ({ s1 with playwrightOn := false }, none)
      else (s1, none)
  else
    if s.playwrightOn then
      if env.playwrightStopRaises then (s, some "playwright.stop failed")
      else ({ s with playwrightOn := false }, none)
    else (s, none)

/-! ### Invariants named by the spec -/

/-- `line_total` is always the product of `unit_price` and `quantity`. -/
def itemInvariant (it : LineItem) : Prop :=
  it.line_total = it.unit_price * (it.quantity : Rat)

/-- Structural validity of a returned cart result: every item satisfies
the line-total invariant, the subtotal is the sum of the line totals, and
the item count is the number of items. -/
def resultInvariant (r : CartResult) : Prop :=
  (∀ it ∈ r.items, itemInvariant it)
    ∧ r.subtotal = (r.items.map LineItem.line_total).sum
    ∧ r.item_count = r.items.length

/-- A per-item step that reaches the inner single-item lookup without the
outer exception handler firing. -/
def reachesLookup : ItemStep → Prop
  | .raisesOutside => False
  | .runs _ => True

/-- A per-item step that neither fires the outer handler nor lets the
inner lookup swallow a failure: the lookup returns an item. -/
def noSilentDrop : ItemStep → Prop
  | .raisesOutside => True
  | .runs .raises => False
  | .runs (.page _) => True

/-! ### Concrete test inputs -/

/-- Markup embedding the same identifier on two cart lines. -/
def htmlSuffix : String :=
  "<div data-asin=\"B07ZPKN6YR\"></div><div data-asin=\"B07ZPKN6YR\"></div>"

/-- A cart page body over the 5000-character blocked-page threshold whose
markup embeds the same identifier on two cart lines. -/
def fillerHtml : String := ⟨List.replicate 5000 'x' ++ htmlSuffix.data⟩

/-- A cart page body over the threshold with no embedded identifiers. -/
def plainHtml : String := ⟨List.replicate 5000 'x'⟩

/-! ## Helper lemmas -/

theorem isLower_iff_toNat (c : Char) :
    c.isLower = decide (97 ≤ c.toNat ∧ c.toNat ≤ 122) := by
  simp only [Char.isLower, Char.toNat, UInt32.le_def, BitVec.le_def, UInt32.toNat,
    Bool.and_eq_true, decide_eq_true_eq]
  rw [show ((97 : UInt32).toBitVec).toNat = 97 from rfl,
    show ((122 : UInt32).toBitVec).toNat = 122 from rfl]
  by_cases h1 : 97 ≤ c.val.toBitVec.toNat <;> by_cases h2 : c.val.toBitVec.toNat ≤ 122 <;>
    simp [h1, h2]

theorem toUpper_not_lower (c : Char) : (Char.toUpper c).isLower = false := by
  by_cases h : 97 ≤ c.toNat ∧ c.toNat ≤ 122
  · have h2 : Char.toUpper c = Char.ofNat (c.toNat - 32) := by
      unfold Char.toUpper
      simp [ge_iff_le, h]
    rw [h2]
    obtain ⟨h1', h2'⟩ := h
    rw [isLower_iff_toNat]
    generalize c.toNat = n at h1' h2'
    interval_cases n <;> decide
  · have h2 : Char.toUpper c = c := by
      unfold Char.toUpper
      simp only [ge_iff_le]
      rw [if_neg h]
    rw [h2, isLower_iff_toNat, decide_eq_false_iff_not]
    exact h

theorem mem_upsert {k : String} {v : Int} :
    ∀ {l : List (String × Int)} {p : String × Int},
      p ∈ upsert k v l → p = (k, v) ∨ p ∈ l := by
  intro l
  induction l with
  | nil => intro p hp; simp [upsert] at hp; left; exact hp
  | cons hd tl ih =>
    intro p hp
    obtain ⟨k', v'⟩ := hd
    unfold upsert at hp
    by_cases hk : k' = k
    · rw [if_pos hk] at hp
      rcases List.mem_cons.mp hp with h | h
      · left; exact h
      · right; exact List.mem_cons_of_mem _ h
    · rw [if_neg hk] at hp
      rcases List.mem_cons.mp hp with h | h
      · right; rw [h]; exact List.mem_cons_self _ _
      · rcases ih h with h2 | h2
        · left; exact h2
        · right; exact List.mem_cons_of_mem _ h2

theorem upsert_ne_nil (k : String) (v : Int) (l : List (String × Int)) :
    upsert k v l ≠ [] := by
  cases l with
  | nil => simp [upsert]
  | cons hd tl =>
    obtain ⟨k', v'⟩ := hd
    unfold upsert
    split <;> simp

theorem foldl_extractStep_ne_nil (url : String) :
    ∀ (ms : List (List Char × List Char)) (acc : List (String × Int)),
      acc ≠ [] ∨ ms ≠ [] →
      List.foldl (extractStep url) acc ms ≠ [] := by
  intro ms
  induction ms with
  | nil =>
    intro acc h
    rcases h with h | h
    · simpa using h
    · exact absurd rfl h
  | cons m rest ih =>
    intro acc _
    simp only [List.foldl_cons]
    exact ih _ (Or.inl (upsert_ne_nil _ _ _))

/-- The identifier-to-quantity map is empty exactly when the URL scan for
the ASIN pattern finds nothing. -/
theorem extract_eq_nil_iff (url : String) :
    extract_asins_from_cart_url url = [] ↔ scanAsins url.data = [] := by
  constructor
  · intro h
    by_contra hscan
    exact foldl_extractStep_ne_nil url (scanAsins url.data) [] (Or.inr hscan) h
  · intro h
    unfold extract_asins_from_cart_url
    rw [h]
    rfl

/-- The fallback identifier list is empty exactly when the map is. -/
theorem fallbackAsins_eq_nil_iff (url : String) :
    fallbackAsins url = [] ↔ extract_asins_from_cart_url url = [] := by
  rw [extract_eq_nil_iff]
  unfold fallbackAsins
  simp

theorem foldl_extractStep_keys_not_lower (url : String) :
    ∀ (ms : List (List Char × List Char)) (acc : List (String × Int)),
      (∀ p ∈ acc, p.1.data.all (fun c => !c.isLower) = true) →
      ∀ p ∈ List.foldl (extractStep url) acc ms,
        p.1.data.all (fun c => !c.isLower) = true := by
  intro ms
  induction ms with
  | nil => intro acc hacc; simpa using hacc
  | cons m rest ih =>
    intro acc hacc
    simp only [List.foldl_cons]
    apply ih
    intro p hp
    rcases mem_upsert hp with h | h
    · subst h
      simp only [upperStr, List.all_eq_true, List.mem_map]
      rintro c ⟨c0, _, rfl⟩
      simp [toUpper_not_lower c0]
    · exact hacc p h

/-! ## C4 — price normalization -/

/-- Claim C4 (confirmed): `_parse_price` strips every character that is
not a digit, comma, or period, removes commas when both separators remain,
turns a lone comma into a period, and parses the remainder, returning 0 on
any parse failure or empty input (it is total, hence never raises).  The
four quoted test vectors evaluate as specified. -/
theorem parse_price_normalizes :
    parse_price "$1,234.56" = 123456 / 100
      ∧ parse_price "12,50" = 1250 / 100
      ∧ parse_price "" = 0
      ∧ parse_price "garbage" = 0
      ∧ ∀ s : String,
          pyFloat? (disambiguate (cleanedPrice s.data)) = none → parse_price s = 0 := by
  refine ⟨?_, ?_, rfl, rfl, ?_⟩
  · rw [show parse_price "$1,234.56"
        = ((digitsVal ['1', '2', '3', '4', '5', '6'] : Rat) / (10 : Rat) ^ 2) from rfl]
    rw [show digitsVal ['1', '2', '3', '4', '5', '6'] = 123456 from by decide]
    norm_num
  · rw [show parse_price "12,50"
        = ((digitsVal ['1', '2', '5', '0'] : Rat) / (10 : Rat) ^ 2) from rfl]
    rw [show digitsVal ['1', '2', '5', '0'] = 1250 from by decide]
    norm_num
  · intro s h
    unfold parse_price
    rw [h]
    split <;> rfl

/-- Witness for the hypothesis-bearing conjunct of C4 at a concrete
unparseable input. -/
theorem parse_price_normalizes_witness :
    pyFloat? (disambiguate (cleanedPrice "no digits here".data)) = none
      ∧ parse_price "no digits here" = 0 :=
  ⟨by decide, parse_price_normalizes.2.2.2.2 "no digits here" (by decide)⟩

/-! ## C2 — cart URL extraction -/

/-- Claim C2 (refuted as stated): on the exact URL quoted by the spec,
with parameters named `ID.n` and `QTY.n`, the extractor finds nothing at
all, because the code scans for parameters named `ASIN.n` and
`Quantity.n`.  The returned map is empty, not the claimed two-entry map. -/
theorem extract_cart_map_id_qty_url_empty :
    extract_asins_from_cart_url
      "https://www.amazon.com/gp/aws/cart/add.html?ID.1=B07ZPKN6YR&QTY.1=2&ID.2=B00006IE7F&QTY.2=5"
      = [] := by
  decide

/-- Claim C2 as amended: the indexed parameters the code extracts are
named `ASIN.n` (matched case-insensitively) and `Quantity.n` (matched
case-sensitively); on such a URL the exact claimed mapping is returned,
identifiers are case-normalized to uppercase regardless of input case, and
every key of every extracted map contains no lowercase character. -/
theorem extract_cart_map_asin_quantity :
    extract_asins_from_cart_url
        "https://www.amazon.com/gp/aws/cart/add.html?ASIN.1=B07ZPKN6YR&Quantity.1=2&ASIN.2=B00006IE7F&Quantity.2=5"
        = [("B07ZPKN6YR", 2), ("B00006IE7F", 5)]
      ∧ extract_asins_from_cart_url
          "https://www.amazon.com/gp/aws/cart/add.html?asin.1=b07zpkn6yr&Quantity.1=2"
          = [("B07ZPKN6YR", 2)]
      ∧ ∀ url : String, ∀ p ∈ extract_asins_from_cart_url url,
          p.1.data.all (fun c => !c.isLower) = true := by
  refine ⟨by decide, by decide, ?_⟩
  intro url p hp
  exact foldl_extractStep_keys_not_lower url (scanAsins url.data) [] (by simp) p hp

/-- Witness for the hypothesis-bearing conjunct of C2 at a concrete
lowercase URL. -/
theorem extract_cart_map_asin_quantity_witness :
    ("B07ZPKN6YR", (2 : Int)) ∈ extract_asins_from_cart_url
        "https://www.amazon.com/gp/aws/cart/add.html?asin.1=b07zpkn6yr&Quantity.1=2"
      ∧ "B07ZPKN6YR".data.all (fun c => !c.isLower) = true :=
  ⟨by decide,
    extract_cart_map_asin_quantity.2.2
      "https://www.amazon.com/gp/aws/cart/add.html?asin.1=b07zpkn6yr&Quantity.1=2"
      ("B07ZPKN6YR", 2) (by decide)⟩

/-! ## C3 — quantity defaulting -/

/-- Claim C3 (refuted as stated): a present quantity parameter with value
0 is not defaulted to 1 — the parsed 0 is stored, so non-positive values
are not defaulted as claimed. -/
theorem extract_cart_map_zero_quantity :
    extract_asins_from_cart_url
        "https://www.amazon.com/gp/aws/cart/add.html?ASIN.1=B07ZPKN6YR&Quantity.1=0"
        = [("B07ZPKN6YR", 0)]
      ∧ extract_asins_from_cart_url
          "https://www.amazon.com/gp/aws/cart/add.html?ASIN.1=B07ZPKN6YR&Quantity.1=0"
          ≠ [("B07ZPKN6YR", 1)] := by
  refine ⟨by decide, by decide⟩

/-- Claim C3 as amended: quantity defaults to 1 when the indexed quantity
parameter is absent or no digit run follows its equals sign (unparseable,
including negative values); when a digit run is present its value is
stored as parsed, including 0; indices match by literal token, so gaps and
out-of-order indices are tolerated. -/
theorem extract_cart_map_quantity_defaults :
    extract_asins_from_cart_url
        "https://www.amazon.com/gp/aws/cart/add.html?ASIN.1=B07ZPKN6YR"
        = [("B07ZPKN6YR", 1)]
      ∧ extract_asins_from_cart_url
          "https://www.amazon.com/gp/aws/cart/add.html?ASIN.1=B07ZPKN6YR&Quantity.1=abc"
          = [("B07ZPKN6YR", 1)]
      ∧ extract_asins_from_cart_url
          "https://www.amazon.com/gp/aws/cart/add.html?ASIN.1=B07ZPKN6YR&Quantity.1=-3"
          = [("B07ZPKN6YR", 1)]
      ∧ extract_asins_from_cart_url
          "https://www.amazon.com/gp/aws/cart/add.html?ASIN.2=B00006IE7F&Quantity.2=0"
          = [("B00006IE7F", 0)]
      ∧ extract_asins_from_cart_url
          "https://www.amazon.com/gp/aws/cart/add.html?ASIN.7=B07ZPKN6YR&ASIN.2=B00006IE7F&Quantity.2=4"
          = [("B07ZPKN6YR", 1), ("B00006IE7F", 4)] := by
  refine ⟨by decide, by decide, by decide, by decide, by decide⟩

/-! ## C8 — close -/

/-- Claim C8 (refuted as stated): `close` guards no teardown call, so a
raising `browser.close()` propagates out of `close` (the error component
is set), the engine reference stays set, and the context is never
released. -/
theorem close_propagates_teardown_error :
    (close ⟨true, true⟩ ⟨1, true, true, true⟩).2 = some "browser.close failed"
      ∧ (close ⟨true, true⟩ ⟨1, true, true, true⟩).1.browserOpen = true
      ∧ (close ⟨false, false⟩ ⟨1, true, true, true⟩).1.contextOpen = true := by
  refine ⟨rfl, rfl, rfl⟩

/-- Claim C8 as amended: `close` releases the engine handle and then the
driver (it does not touch page handles or the context); when neither
teardown call raises it clears both references, raises nothing, and is
idempotent - a second call is a no-op that again raises nothing. -/
theorem close_succeeds_without_teardown_errors (env : TeardownEnv) (s : ScraperState)
    (hb : env.browserCloseRaises = false) (hp : env.playwrightStopRaises = false) :
    close env s = ({ s with browserOpen := false, playwrightOn := false }, none)
      ∧ close env (close env s).1 = ((close env s).1, none) := by
  obtain ⟨eb, ep⟩ := env
  simp only at hb hp
  subst hb hp
  obtain ⟨pg, ctx, b, p⟩ := s
  cases b <;> cases p <;> simp [close]

/-- Witness for C8 as amended at a concrete fully-open state. -/
theorem close_succeeds_without_teardown_errors_witness :
    close ⟨false, false⟩ ⟨2, true, true, true⟩
        = (⟨2, true, false, false⟩, none)
      ∧ close ⟨false, false⟩ (close ⟨false, false⟩ ⟨2, true, true, true⟩).1
        = ((close ⟨false, false⟩ ⟨2, true, true, true⟩).1, none) :=
  close_succeeds_without_teardown_errors ⟨false, false⟩ ⟨2, true, true, true⟩ rfl rfl

/-! ## C6 — batch size cap -/

set_option maxRecDepth 8000 in
/-- Claim C6 (refuted as stated): the strategy taken for a cart URL whose
identifier map is non-empty runs `_lookup_asins_with_quantities`, which
has no batch limit; a URL carrying 11 identifiers yields 11 line items,
not at most 10. -/
theorem lookup_with_quantities_no_batch_cap :
    (scrape_cart_url .raises (fun _ => .raisesOutside) (fun _ => 3) id
        "https://www.amazon.com/gp/aws/cart/add.html?ASIN.1=B000000001&ASIN.2=B000000002&ASIN.3=B000000003&ASIN.4=B000000004&ASIN.5=B000000005&ASIN.6=B000000006&ASIN.7=B000000007&ASIN.8=B000000008&ASIN.9=B000000009&ASIN.10=B000000010&ASIN.11=B000000011"
        = Except.ok
            (lookup_asins_with_quantities (fun _ => .raisesOutside) (fun _ => 3)
              (extract_asins_from_cart_url
                "https://www.amazon.com/gp/aws/cart/add.html?ASIN.1=B000000001&ASIN.2=B000000002&ASIN.3=B000000003&ASIN.4=B000000004&ASIN.5=B000000005&ASIN.6=B000000006&ASIN.7=B000000007&ASIN.8=B000000008&ASIN.9=B000000009&ASIN.10=B000000010&ASIN.11=B000000011")).1)
      ∧ (lookup_asins_with_quantities (fun _ => .raisesOutside) (fun _ => 3)
          (extract_asins_from_cart_url
            "https://www.amazon.com/gp/aws/cart/add.html?ASIN.1=B000000001&ASIN.2=B000000002&ASIN.3=B000000003&ASIN.4=B000000004&ASIN.5=B000000005&ASIN.6=B000000006&ASIN.7=B000000007&ASIN.8=B000000008&ASIN.9=B000000009&ASIN.10=B000000010&ASIN.11=B000000011")).1.item_count
        = 11 := by
  refine ⟨rfl, by decide⟩

theorem lookupStep_items_le (asin : String) (st : ItemStep) (delay : Rat)
    (tail : List LineItem × List Rat) :
    (lookupStep asin st delay tail).1.length ≤ tail.1.length + 1 := by
  cases st with
  | raisesOutside => simp [lookupStep]
  | runs b =>
    cases h : lookup_single_asin asin b with
    | some it => simp [lookupStep, h]
    | none => simp [lookupStep, h]

theorem lookupQtyStep_items_le (asin : String) (qty : Int) (st : ItemStep) (delay : Rat)
    (tail : List LineItem × List Rat) :
    (lookupQtyStep asin qty st delay tail).1.length ≤ tail.1.length + 1 := by
  cases st with
  | raisesOutside => simp [lookupQtyStep]
  | runs b =>
    cases h : lookup_single_asin asin b with
    | some it => simp [lookupQtyStep, h]
    | none => simp [lookupQtyStep, h]

theorem lookupAsinsAux_items_le (env : Nat → ItemStep) (rnd : Nat → Rat) :
    ∀ (l : List String) (i : Nat),
      (lookupAsinsAux env rnd i l).1.length ≤ l.length := by
  intro l
  induction l with
  | nil => intro i; simp [lookupAsinsAux]
  | cons asin rest ih =>
    intro i
    calc (lookupAsinsAux env rnd i (asin :: rest)).1.length
        ≤ (lookupAsinsAux env rnd (i + 1) rest).1.length + 1 :=
          lookupStep_items_le asin (env i) (rnd i) _
      _ ≤ rest.length + 1 := Nat.succ_le_succ (ih (i + 1))

theorem lookupQtyAux_items_le (env : Nat → ItemStep) (rnd : Nat → Rat) :
    ∀ (l : List (String × Int)) (i : Nat),
      (lookupQtyAux env rnd i l).1.length ≤ l.length := by
  intro l
  induction l with
  | nil => intro i; simp [lookupQtyAux]
  | cons hd rest ih =>
    intro i
    obtain ⟨asin, qty⟩ := hd
    calc (lookupQtyAux env rnd i ((asin, qty) :: rest)).1.length
        ≤ (lookupQtyAux env rnd (i + 1) rest).1.length + 1 :=
          lookupQtyStep_items_le asin qty (env i) (rnd i) _
      _ ≤ rest.length + 1 := Nat.succ_le_succ (ih (i + 1))

/-- Claim C6 as amended: the 10-item batch cap applies only to the
identifier-list entry point `lookup_asins` (which slices its input to 10);
the cart-URL map path `_lookup_asins_with_quantities` has no cap and
produces up to one item per map entry, however many entries there are. -/
theorem batch_cap_only_on_list_path :
    (∀ (env : Nat → ItemStep) (rnd : Nat → Rat) (asins : List String),
        (lookup_asins env rnd asins).1.item_count ≤ 10)
      ∧ ∀ (env : Nat → ItemStep) (rnd : Nat → Rat) (m : List (String × Int)),
          (lookup_asins_with_quantities env rnd m).1.item_count ≤ m.length := by
  constructor
  · intro env rnd asins
    show (lookupAsinsAux env rnd 0 (asins.take 10)).1.length ≤ 10
    calc (lookupAsinsAux env rnd 0 (asins.take 10)).1.length
        ≤ (asins.take 10).length := lookupAsinsAux_items_le env rnd _ 0
      _ ≤ 10 := by simp [List.length_take]
  · intro env rnd m
    exact lookupQtyAux_items_le env rnd m 0

/-! ## C9 — inter-request pacing -/

/-- Claim C9 (refuted as stated): the inter-request sleep sits inside the
per-item `try`, so an iteration whose exception reaches the handler skips
its delay; with both of 2 identifiers failing that way, 0 delays occur,
fewer than the claimed minimum of N - 1 = 1. -/
theorem pacing_skipped_on_exception :
    (lookup_asins (fun _ => .raisesOutside) (fun _ => 3)
        ["B000000001", "B000000002"]).2.length = 0
      ∧ (lookup_asins (fun _ => .raisesOutside) (fun _ => 3)
          ["B000000001", "B000000002"]).1.item_count = 2 := by
  refine ⟨rfl, rfl⟩

theorem lookupStep_delays_of_reaches (asin : String) (st : ItemStep) (delay : Rat)
    (tail : List LineItem × List Rat) (h : reachesLookup st) :
    (lookupStep asin st delay tail).2 = delay :: tail.2 := by
  cases st with
  | raisesOutside => exact absurd h (by simp [reachesLookup])
  | runs b =>
    cases h2 : lookup_single_asin asin b with
    | some it => simp [lookupStep, h2]
    | none => simp [lookupStep, h2]

theorem lookupStep_delays_cases (asin : String) (st : ItemStep) (delay : Rat)
    (tail : List LineItem × List Rat) :
    ∀ d ∈ (lookupStep asin st delay tail).2, d = delay ∨ d ∈ tail.2 := by
  intro d hd
  cases st with
  | raisesOutside => right; simpa [lookupStep] using hd
  | runs b =>
    cases h2 : lookup_single_asin asin b with
    | some it => simpa [lookupStep, h2] using List.mem_cons.mp (by simpa [lookupStep, h2] using hd)
    | none => simpa [lookupStep, h2] using List.mem_cons.mp (by simpa [lookupStep, h2] using hd)

theorem lookupAsinsAux_delays_count (env : Nat → ItemStep) (rnd : Nat → Rat) :
    ∀ (l : List String) (i : Nat),
      (∀ j, j < l.length → reachesLookup (env (i + j))) →
      (lookupAsinsAux env rnd i l).2.length = l.length := by
  intro l
  induction l with
  | nil => intro i _; simp [lookupAsinsAux]
  | cons asin rest ih =>
    intro i h
    have h0 : reachesLookup (env i) := by
      have := h 0 (by simp)
      simpa using this
    have htail : ∀ j, j < rest.length → reachesLookup (env (i + 1 + j)) := by
      intro j hj
      have := h (j + 1) (by simpa using Nat.succ_lt_succ hj)
      have heq : i + (j + 1) = i + 1 + j := by omega
      rwa [heq] at this
    show (lookupStep asin (env i) (rnd i) (lookupAsinsAux env rnd (i + 1) rest)).2.length
      = rest.length + 1
    rw [lookupStep_delays_of_reaches asin (env i) (rnd i) _ h0]
    simpa using ih (i + 1) htail

theorem lookupAsinsAux_delays_mem (env : Nat → ItemStep) (rnd : Nat → Rat) :
    ∀ (l : List String) (i : Nat) (d : Rat),
      d ∈ (lookupAsinsAux env rnd i l).2 → ∃ j, d = rnd j := by
  intro l
  induction l with
  | nil => intro i d hd; simp [lookupAsinsAux] at hd
  | cons asin rest ih =>
    intro i d hd
    have hd2 : d ∈ (lookupStep asin (env i) (rnd i)
        (lookupAsinsAux env rnd (i + 1) rest)).2 := hd
    rcases lookupStep_delays_cases asin (env i) (rnd i) _ d hd2 with h | h
    · exact ⟨i, h⟩
    · exact ih (i + 1) d h

/-- Claim C9 as amended: a delay is slept after each of the (up to 10)
identifiers whose iteration reaches the inner lookup - whether that lookup
returns an item or silently fails - but not after an iteration whose
exception reaches the per-item handler.  When every iteration reaches the
lookup there are exactly N delays (hence at least N - 1), and every slept
delay is a draw of the uniform(2.0, 5.0) generator, so it lies within the
configured bound whenever the generator honours its contract. -/
theorem pacing_on_lookup_steps (env : Nat → ItemStep) (rnd : Nat → Rat)
    (asins : List String)
    (hall : ∀ j, j < (asins.take 10).length → reachesLookup (env j))
    (hrng : ∀ i, 2 ≤ rnd i ∧ rnd i ≤ 5) :
    (lookup_asins env rnd asins).2.length = (asins.take 10).length
      ∧ ∀ d ∈ (lookup_asins env rnd asins).2, 2 ≤ d ∧ d ≤ 5 := by
  constructor
  · exact lookupAsinsAux_delays_count env rnd (asins.take 10) 0 (by simpa using hall)
  · intro d hd
    obtain ⟨j, rfl⟩ := lookupAsinsAux_delays_mem env rnd (asins.take 10) 0 d hd
    exact hrng j

/-! ## C1 — partial-failure policy -/

/-- Claim C1 (refuted as stated): a timeout or navigation error inside
`_lookup_single_asin` is caught there and turned into `None`, which the
`lookup_asins` loop silently skips — no placeholder is appended.  With 3
requested identifiers and the second lookup timing out, the result has 2
items, not one record per requested identifier. -/
theorem lookup_asins_timeout_drops_item :
    (lookup_asins
        (fun i => if i = 1 then .runs .raises
          else .runs (.page ⟨some "Widget", [some "$5"], none⟩))
        (fun _ => 3)
        ["B000000001", "B000000002", "B000000003"]).1.item_count = 2
      ∧ (["B000000001", "B000000002", "B000000003"] : List String).length = 3 :=
  ⟨rfl, rfl⟩

theorem lookupStep_cons_of_noDrop (asin : String) (st : ItemStep) (delay : Rat)
    (tail : List LineItem × List Rat) (h : noSilentDrop st) :
    ∃ it, (lookupStep asin st delay tail).1 = it :: tail.1
      ∧ (st = .raisesOutside → it = placeholderItem asin 1) := by
  cases st with
  | raisesOutside => exact ⟨placeholderItem asin 1, rfl, fun _ => rfl⟩
  | runs b =>
    cases b with
    | raises => exact absurd h (by simp [noSilentDrop])
    | page p =>
      refine ⟨_, rfl, ?_⟩
      intro hc
      exact absurd hc (by simp)

theorem lookupAsinsAux_noDrop (env : Nat → ItemStep) (rnd : Nat → Rat)
    (h : ∀ j, noSilentDrop (env j)) :
    ∀ (l : List String) (i : Nat),
      (lookupAsinsAux env rnd i l).1.length = l.length
        ∧ ∀ (k : Nat) (hk : k < l.length), env (i + k) = .raisesOutside →
            (lookupAsinsAux env rnd i l).1.get? k
              = some (placeholderItem (l.get ⟨k, hk⟩) 1) := by
  intro l
  induction l with
  | nil => intro i; refine ⟨by simp [lookupAsinsAux], ?_⟩; intro k hk; simp at hk
  | cons asin rest ih =>
    intro i
    obtain ⟨it, hstep, hph⟩ :=
      lookupStep_cons_of_noDrop asin (env i) (rnd i) (lookupAsinsAux env rnd (i + 1) rest) (h i)
    have hunf : (lookupAsinsAux env rnd i (asin :: rest)).1 =
        it :: (lookupAsinsAux env rnd (i + 1) rest).1 := hstep
    constructor
    · rw [hunf]
      simpa using (ih (i + 1)).1
    · intro k hk henv
      cases k with
      | zero =>
        have h0 : env i = .raisesOutside := by simpa using henv
        rw [hunf]
        simp only [List.get?_cons_zero, List.get]
        rw [hph h0]
      | succ k =>
        have hk2 : k < rest.length := by simpa using Nat.lt_of_succ_lt_succ hk
        have henv2 : env (i + 1 + k) = .raisesOutside := by
          have heq : i + 1 + k = i + (k + 1) := by omega
          rwa [heq]
        rw [hunf]
        simp only [List.get?_cons_succ]
        have := (ih (i + 1)).2 k hk2 henv2
        simpa using this

/-- Claim C1 as amended: the batch never aborts, and a placeholder line
item (price 0, quantity 1, title `Product` plus the identifier) is
produced exactly for identifiers whose iteration raises before the inner
lookup (page creation failure).  A timeout or error inside the inner
single-item lookup yields no record at all, so the result has exactly one
record per requested identifier (among the first 10) only when no inner
lookup silently fails. -/
theorem lookup_asins_placeholder_policy (env : Nat → ItemStep) (rnd : Nat → Rat)
    (asins : List String) (h : ∀ j, noSilentDrop (env j)) :
    (lookup_asins env rnd asins).1.item_count = (asins.take 10).length
      ∧ ∀ (k : Nat) (hk : k < (asins.take 10).length), env k = .raisesOutside →
          (lookup_asins env rnd asins).1.items.get? k
            = some (placeholderItem ((asins.take 10).get ⟨k, hk⟩) 1) := by
  have haux := lookupAsinsAux_noDrop env rnd h (asins.take 10) 0
  refine ⟨haux.1, ?_⟩
  intro k hk henv
  have := haux.2 k hk (by simpa using henv)
  simpa using this

/-- Witness for C1 as amended: every iteration failing outside the lookup
yields exactly one placeholder per identifier. -/
theorem lookup_asins_placeholder_policy_witness :
    (lookup_asins (fun _ => .raisesOutside) (fun _ => 3)
        ["B000000001", "B000000002"]).1.item_count
      = ((["B000000001", "B000000002"] : List String).take 10).length
      ∧ (lookup_asins (fun _ => .raisesOutside) (fun _ => 3)
          ["B000000001", "B000000002"]).1.items.get? 0
        = some (placeholderItem "B000000001" 1) := by
  have h := lookup_asins_placeholder_policy (fun _ => .raisesOutside) (fun _ => 3)
    ["B000000001", "B000000002"] (fun _ => trivial)
  exact ⟨h.1, h.2 0 (by decide) rfl⟩

/-! ## Branch equations for `scrape_cart_url` -/

theorem scrape_eq_strategy1 (nav : NavOutcome) (env : Nat → ItemStep) (rnd : Nat → Rat)
    (so : List String → List String) (url : String)
    (hm : extract_asins_from_cart_url url ≠ []) :
    scrape_cart_url nav env rnd so url
      = .ok (lookup_asins_with_quantities env rnd (extract_asins_from_cart_url url)).1 := by
  simp only [scrape_cart_url]
  rw [if_pos hm]

theorem scrape_eq_createPageFails (env : Nat → ItemStep) (rnd : Nat → Rat)
    (so : List String → List String) (url : String)
    (hm : extract_asins_from_cart_url url = []) :
    scrape_cart_url .createPageFails env rnd so url
      = .error "Failed to initialize browser" := by
  simp only [scrape_cart_url]
  rw [if_neg (by simp [hm])]

theorem scrape_eq_raises (env : Nat → ItemStep) (rnd : Nat → Rat)
    (so : List String → List String) (url : String)
    (hm : extract_asins_from_cart_url url = []) :
    scrape_cart_url .raises env rnd so url = .error "Error scraping cart" := by
  simp only [scrape_cart_url]
  rw [if_neg (by simp [hm])]

/-- When the strategy-1 map is empty, the timeout fallback list (built by
the same pattern) is empty as well, so the timeout always surfaces as the
cart-page-load exception. -/
theorem scrape_eq_timeout (env : Nat → ItemStep) (rnd : Nat → Rat)
    (so : List String → List String) (url : String)
    (hm : extract_asins_from_cart_url url = []) :
    scrape_cart_url .timeout env rnd so url = .error "Cart page load timeout" := by
  have hfb : fallbackAsins url = [] := (fallbackAsins_eq_nil_iff url).mpr hm
  simp only [scrape_cart_url]
  rw [if_neg (by simp [hm])]
  rw [if_neg (by simp [hfb])]

theorem scrape_eq_loaded_blocked (env : Nat → ItemStep) (rnd : Nat → Rat)
    (so : List String → List String) (url html : String) (sels : List (List CartElement))
    (hm : extract_asins_from_cart_url url = [])
    (hcond : (listInfix "Something went wrong".data html.data
      || decide (html.data.length < 5000)) = true) :
    scrape_cart_url (.loaded html sels) env rnd so url = .ok (mkCartResult []) := by
  have hfb : fallbackAsins url = [] := (fallbackAsins_eq_nil_iff url).mpr hm
  simp only [scrape_cart_url]
  rw [if_neg (by simp [hm])]
  rw [if_pos hcond]
  rw [if_neg (by simp [hfb])]

theorem scrape_eq_loaded_noitems (env : Nat → ItemStep) (rnd : Nat → Rat)
    (so : List String → List String) (url html : String) (sels : List (List CartElement))
    (hm : extract_asins_from_cart_url url = [])
    (hcond : (listInfix "Something went wrong".data html.data
      || decide (html.data.length < 5000)) = false)
    (hsel : firstNonempty sels = []) :
    scrape_cart_url (.loaded html sels) env rnd so url
      = if scanDataAsin html.data ≠ []
          then .ok (lookup_asins env rnd (so (scanDataAsin html.data))).1
          else .ok (mkCartResult []) := by
  simp only [scrape_cart_url]
  rw [if_neg (by simp [hm])]
  rw [hcond]
  rw [if_neg (by simp)]
  rw [hsel]
  simp

theorem scrape_eq_loaded_items (env : Nat → ItemStep) (rnd : Nat → Rat)
    (so : List String → List String) (url html : String) (sels : List (List CartElement))
    (hm : extract_asins_from_cart_url url = [])
    (hcond : (listInfix "Something went wrong".data html.data
      || decide (html.data.length < 5000)) = false)
    (hsel : (firstNonempty sels).isEmpty = false) :
    scrape_cart_url (.loaded html sels) env rnd so url
      = .ok (mkCartResult (((firstNonempty sels).filterMap extract_cart_item).filter
          (fun it => it.asin ≠ ""))) := by
  simp only [scrape_cart_url]
  rw [if_neg (by simp [hm])]
  rw [hcond]
  rw [if_neg (by simp)]
  rw [hsel]
  simp

/-! ## C7 — structural invariants -/

theorem placeholderItem_invariant (asin : String) (qty : Int) :
    itemInvariant (placeholderItem asin qty) := by
  simp [itemInvariant, placeholderItem]

theorem lookup_single_asin_facts (asin : String) (b : SingleLookupBehavior)
    (it : LineItem) (h : lookup_single_asin asin b = some it) :
    itemInvariant it ∧ it.quantity = 1 ∧ it.asin = asin := by
  cases b with
  | raises => exact absurd h (by simp [lookup_single_asin])
  | page p =>
    simp only [lookup_single_asin, Option.some.injEq] at h
    subst h
    refine ⟨?_, rfl, rfl⟩
    simp [itemInvariant]

theorem lookupStep_item_facts (asin : String) (st : ItemStep) (delay : Rat)
    (tail : List LineItem × List Rat) :
    ∀ it ∈ (lookupStep asin st delay tail).1,
      (itemInvariant it ∧ it.quantity = 1) ∨ it ∈ tail.1 := by
  intro it hit
  cases st with
  | raisesOutside =>
    rcases List.mem_cons.mp (by simpa [lookupStep] using hit) with h | h
    · subst h
      exact Or.inl ⟨placeholderItem_invariant asin 1, rfl⟩
    · exact Or.inr h
  | runs b =>
    cases h2 : lookup_single_asin asin b with
    | some it2 =>
      rcases List.mem_cons.mp (by simpa [lookupStep, h2] using hit) with h | h
      · obtain ⟨hi, hq, _⟩ := lookup_single_asin_facts asin b it2 h2
        rw [h]
        exact Or.inl ⟨hi, hq⟩
      · exact Or.inr h
    | none => exact Or.inr (by simpa [lookupStep, h2] using hit)

theorem lookupAsinsAux_item_facts (env : Nat → ItemStep) (rnd : Nat → Rat) :
    ∀ (l : List String) (i : Nat),
      ∀ it ∈ (lookupAsinsAux env rnd i l).1, itemInvariant it ∧ it.quantity = 1 := by
  intro l
  induction l with
  | nil => intro i it hit; simp [lookupAsinsAux] at hit
  | cons asin rest ih =>
    intro i it hit
    rcases lookupStep_item_facts asin (env i) (rnd i) _ it hit with h | h
    · exact h
    · exact ih (i + 1) it h

theorem lookupQtyStep_item_invariant (asin : String) (qty : Int) (st : ItemStep)
    (delay : Rat) (tail : List LineItem × List Rat) :
    ∀ it ∈ (lookupQtyStep asin qty st delay tail).1,
      itemInvariant it ∨ it ∈ tail.1 := by
  intro it hit
  cases st with
  | raisesOutside =>
    rcases List.mem_cons.mp (by simpa [lookupQtyStep] using hit) with h | h
    · subst h
      exact Or.inl (placeholderItem_invariant asin qty)
    · exact Or.inr h
  | runs b =>
    cases h2 : lookup_single_asin asin b with
    | some it2 =>
      rcases List.mem_cons.mp (by simpa [lookupQtyStep, h2] using hit) with h | h
      · rw [h]
        exact Or.inl (by simp [itemInvariant])
      · exact Or.inr h
    | none => exact Or.inr (by simpa [lookupQtyStep, h2] using hit)

theorem lookupQtyAux_item_invariant (env : Nat → ItemStep) (rnd : Nat → Rat) :
    ∀ (l : List (String × Int)) (i : Nat),
      ∀ it ∈ (lookupQtyAux env rnd i l).1, itemInvariant it := by
  intro l
  induction l with
  | nil => intro i it hit; simp [lookupQtyAux] at hit
  | cons hd rest ih =>
    intro i it hit
    obtain ⟨asin, qty⟩ := hd
    rcases lookupQtyStep_item_invariant asin qty (env i) (rnd i) _ it hit with h | h
    · exact h
    · exact ih (i + 1) it h

theorem extract_cart_item_invariant (e : CartElement) (it : LineItem)
    (h : extract_cart_item e = some it) : itemInvariant it := by
  unfold extract_cart_item at h
  cases ha : elementAsin e with
  | none => rw [ha] at h; exact absurd h (by simp)
  | some asin =>
    rw [ha] at h
    have h2 := (Option.some.injEq _ _).mp h.symm
    subst h2
    simp only [itemInvariant]
    push_cast
    rfl

theorem mkCartResult_invariant (items : List LineItem)
    (h : ∀ it ∈ items, itemInvariant it) : resultInvariant (mkCartResult items) :=
  ⟨h, rfl, rfl⟩

theorem lookup_asins_invariant (env : Nat → ItemStep) (rnd : Nat → Rat)
    (asins : List String) : resultInvariant (lookup_asins env rnd asins).1 :=
  mkCartResult_invariant _
    (fun it hit => (lookupAsinsAux_item_facts env rnd (asins.take 10) 0 it hit).1)

theorem lookup_with_quantities_invariant (env : Nat → ItemStep) (rnd : Nat → Rat)
    (m : List (String × Int)) :
    resultInvariant (lookup_asins_with_quantities env rnd m).1 :=
  mkCartResult_invariant _ (lookupQtyAux_item_invariant env rnd m 0)

/-- Claim C7 (confirmed): on every path — identifier-list lookup, URL-map
lookup, cart-element extraction and the full page-scrape control flow —
every produced line item has `line_total = unit_price * quantity`, and
every successfully returned cart result has `subtotal` equal to the sum of
the line totals and `item_count` equal to the number of items. -/
theorem cart_result_invariants :
    (∀ (env : Nat → ItemStep) (rnd : Nat → Rat) (asins : List String),
        resultInvariant (lookup_asins env rnd asins).1)
      ∧ (∀ (env : Nat → ItemStep) (rnd : Nat → Rat) (m : List (String × Int)),
          resultInvariant (lookup_asins_with_quantities env rnd m).1)
      ∧ (∀ (e : CartElement) (it : LineItem),
          extract_cart_item e = some it → itemInvariant it)
      ∧ ∀ (nav : NavOutcome) (env : Nat → ItemStep) (rnd : Nat → Rat)
          (so : List String → List String) (url : String) (r : CartResult),
          scrape_cart_url nav env rnd so url = Except.ok r → resultInvariant r := by
  refine ⟨lookup_asins_invariant, lookup_with_quantities_invariant,
    extract_cart_item_invariant, ?_⟩
  intro nav env rnd so url r hr
  by_cases hm : extract_asins_from_cart_url url = []
  case neg =>
    rw [scrape_eq_strategy1 nav env rnd so url hm] at hr
    injection hr with h
    subst h
    exact lookup_with_quantities_invariant env rnd _
  case pos =>
    cases nav with
    | createPageFails =>
      rw [scrape_eq_createPageFails env rnd so url hm] at hr
      simp at hr
    | raises =>
      rw [scrape_eq_raises env rnd so url hm] at hr
      simp at hr
    | timeout =>
      rw [scrape_eq_timeout env rnd so url hm] at hr
      simp at hr
    | loaded html sels =>
      by_cases hcond : (listInfix "Something went wrong".data html.data
          || decide (html.data.length < 5000)) = true
      · rw [scrape_eq_loaded_blocked env rnd so url html sels hm hcond] at hr
        injection hr with h
        subst h
        exact mkCartResult_invariant [] (by simp)
      · have hcond2 : (listInfix "Something went wrong".data html.data
            || decide (html.data.length < 5000)) = false := by
          simpa using hcond
        by_cases hsel : firstNonempty sels = []
        · rw [scrape_eq_loaded_noitems env rnd so url html sels hm hcond2 hsel] at hr
          split at hr
          · injection hr with h
            subst h
            exact lookup_asins_invariant env rnd _
          · injection hr with h
            subst h
            exact mkCartResult_invariant [] (by simp)
        · have hsel2 : (firstNonempty sels).isEmpty = false := by
            simpa [List.isEmpty_iff] using hsel
          rw [scrape_eq_loaded_items env rnd so url html sels hm hcond2 hsel2] at hr
          injection hr with h
          subst h
          apply mkCartResult_invariant
          intro it hit
          have hit2 := List.mem_filter.mp hit
          obtain ⟨e, _, he⟩ := List.mem_filterMap.mp hit2.1
          exact extract_cart_item_invariant e it he

/-- Witness for the hypothesis-bearing conjuncts of C7 at a concrete
blocked-page scrape that returns the empty result. -/
theorem cart_result_invariants_witness :
    scrape_cart_url (.loaded "" []) (fun _ => .raisesOutside) (fun _ => 3) id "q"
        = Except.ok (mkCartResult [])
      ∧ resultInvariant (mkCartResult []) :=
  ⟨rfl,
    cart_result_invariants.2.2.2 (.loaded "" []) (fun _ => .raisesOutside) (fun _ => 3)
      id "q" (mkCartResult []) rfl⟩

/-! ## C5 — error surface of the cart-acquisition entry point -/

/-- Claim C5 (refuted as stated): a navigation timeout on the cart page is
an exception visible to the caller.  On a cart URL carrying no extractable
identifiers (the only way to reach the page-scrape path at all), the
timeout handler finds no identifiers either and re-raises. -/
theorem scrape_cart_url_timeout_raises :
    scrape_cart_url .timeout (fun _ => .raisesOutside) (fun _ => 3) id
      "https://www.amazon.com/gp/cart/view.html" = .error "Cart page load timeout" := rfl

/-- Claim C5 as amended: the caller gets a structurally valid result
whenever identifiers are extractable from the URL; when they are not,
exceptions escape for page-creation failure, for an unanticipated
page-scrape exception, and for a navigation timeout — the timeout
fallback can never fire, because reaching the page-scrape path already
implies the URL-recoverable identifier list is empty.  Every loaded-page
outcome yields a valid result. -/
theorem scrape_cart_url_error_surface (nav : NavOutcome) (env : Nat → ItemStep)
    (rnd : Nat → Rat) (so : List String → List String) (url : String) :
    (extract_asins_from_cart_url url ≠ [] →
        ∃ r, scrape_cart_url nav env rnd so url = Except.ok r)
      ∧ (extract_asins_from_cart_url url = [] → nav = .timeout →
          scrape_cart_url nav env rnd so url = Except.error "Cart page load timeout")
      ∧ ∀ e, scrape_cart_url nav env rnd so url = Except.error e →
          extract_asins_from_cart_url url = []
            ∧ (nav = .createPageFails ∨ nav = .raises ∨ nav = .timeout) := by
  refine ⟨?_, ?_, ?_⟩
  · intro hm
    exact ⟨_, scrape_eq_strategy1 nav env rnd so url hm⟩
  · intro hm hnav
    subst hnav
    exact scrape_eq_timeout env rnd so url hm
  · intro e he
    by_cases hm : extract_asins_from_cart_url url = []
    case neg =>
      rw [scrape_eq_strategy1 nav env rnd so url hm] at he
      simp at he
    case pos =>
      refine ⟨hm, ?_⟩
      cases nav with
      | createPageFails => exact Or.inl rfl
      | raises => exact Or.inr (Or.inl rfl)
      | timeout => exact Or.inr (Or.inr rfl)
      | loaded html sels =>
        exfalso
        by_cases hcond : (listInfix "Something went wrong".data html.data
            || decide (html.data.length < 5000)) = true
        · rw [scrape_eq_loaded_blocked env rnd so url html sels hm hcond] at he
          simp at he
        · have hcond2 : (listInfix "Something went wrong".data html.data
              || decide (html.data.length < 5000)) = false := by
            simpa using hcond
          by_cases hsel : firstNonempty sels = []
          · rw [scrape_eq_loaded_noitems env rnd so url html sels hm hcond2 hsel] at he
            split at he <;> simp at he
          · have hsel2 : (firstNonempty sels).isEmpty = false := by
              simpa [List.isEmpty_iff] using hsel
            rw [scrape_eq_loaded_items env rnd so url html sels hm hcond2 hsel2] at he
            simp at he

/-- Witness for C5 as amended: a concrete no-identifier URL under a
navigation timeout surfaces the exception. -/
theorem scrape_cart_url_error_surface_witness :
    scrape_cart_url .timeout (fun _ => .runs .raises) (fun _ => 3) id "x"
      = Except.error "Cart page load timeout" :=
  (scrape_cart_url_error_surface .timeout (fun _ => .runs .raises) (fun _ => 3) id "x").2.1
    rfl rfl

/-! ## C10 — deduplication of embedded identifiers -/

theorem listInfix_false_of_head_notMem (p : Char) (ps l : List Char) (h : p ∉ l) :
    listInfix (p :: ps) l = false := by
  induction l with
  | nil => rfl
  | cons c cs ih =>
    have hpc : p ≠ c := fun he => h (he ▸ List.mem_cons_self c cs)
    have hcs : p ∉ cs := fun he => h (List.mem_cons_of_mem c he)
    simp only [listInfix]
    rw [show matchLit (p :: ps) (c :: cs) = none from by simp [matchLit, hpc]]
    simpa using ih hcs

theorem listInfix_wrong_fillerHtml :
    listInfix "Something went wrong".data fillerHtml.data = false := by
  rw [show "Something went wrong".data = 'S' :: "omething went wrong".data from rfl]
  apply listInfix_false_of_head_notMem
  intro hmem
  rw [show fillerHtml.data = List.replicate 5000 'x' ++ htmlSuffix.data from rfl] at hmem
  rcases List.mem_append.mp hmem with h | h
  · exact absurd (List.eq_of_mem_replicate h) (by decide)
  · exact absurd h (by decide)

theorem listInfix_wrong_plainHtml :
    listInfix "Something went wrong".data plainHtml.data = false := by
  rw [show "Something went wrong".data = 'S' :: "omething went wrong".data from rfl]
  apply listInfix_false_of_head_notMem
  intro hmem
  exact absurd (List.eq_of_mem_replicate hmem) (by decide)

theorem scanDataAsinAux_skip_x :
    ∀ (n : Nat) (t : List Char),
      scanDataAsinAux (n + t.length) (List.replicate n 'x' ++ t)
        = scanDataAsinAux t.length t := by
  intro n
  induction n with
  | zero => intro t; rw [Nat.zero_add]; rfl
  | succ n ih =>
    intro t
    have h1 : List.replicate (n + 1) 'x' ++ t = 'x' :: (List.replicate n 'x' ++ t) := by
      simp [List.replicate_succ]
    have h2 : n + 1 + t.length = (n + t.length) + 1 := by omega
    have h3 : scanDataAsinAux ((n + t.length) + 1) ('x' :: (List.replicate n 'x' ++ t))
        = scanDataAsinAux (n + t.length) (List.replicate n 'x' ++ t) := rfl
    rw [h1, h2, h3]
    exact ih t

theorem scanDataAsin_fillerHtml :
    scanDataAsin fillerHtml.data = ["B07ZPKN6YR", "B07ZPKN6YR"] := by
  show scanDataAsinAux fillerHtml.data.length fillerHtml.data = _
  rw [show fillerHtml.data = List.replicate 5000 'x' ++ htmlSuffix.data from rfl]
  rw [List.length_append, List.length_replicate]
  rw [scanDataAsinAux_skip_x]
  decide

theorem scanDataAsin_plainHtml : scanDataAsin plainHtml.data = [] := by
  show scanDataAsinAux plainHtml.data.length plainHtml.data = _
  rw [show plainHtml.data = List.replicate 5000 'x' ++ ([] : List Char) from (List.append_nil _).symm]
  rw [List.length_append, List.length_replicate]
  rw [scanDataAsinAux_skip_x]
  rfl

theorem fillerHtml_length : fillerHtml.data.length = 5068 := by
  rw [show fillerHtml.data = List.replicate 5000 'x' ++ htmlSuffix.data from rfl]
  rw [List.length_append, List.length_replicate]
  rw [show htmlSuffix.data.length = 68 from by decide]

theorem plainHtml_length : plainHtml.data.length = 5000 := by
  rw [show plainHtml.data = List.replicate 5000 'x' from rfl]
  rw [List.length_replicate]

theorem fillerHtml_not_blocked :
    (listInfix "Something went wrong".data fillerHtml.data
      || decide (fillerHtml.data.length < 5000)) = false := by
  rw [listInfix_wrong_fillerHtml, fillerHtml_length]
  rfl

theorem plainHtml_not_blocked :
    (listInfix "Something went wrong".data plainHtml.data
      || decide (plainHtml.data.length < 5000)) = false := by
  rw [listInfix_wrong_plainHtml, plainHtml_length]
  rfl


theorem lookupStep_asins_shape (asin : String) (st : ItemStep) (delay : Rat)
    (tail : List LineItem × List Rat) :
    (lookupStep asin st delay tail).1.map LineItem.asin
        = asin :: tail.1.map LineItem.asin
      ∨ (lookupStep asin st delay tail).1.map LineItem.asin
        = tail.1.map LineItem.asin := by
  cases st with
  | raisesOutside => exact Or.inl (by simp [lookupStep, placeholderItem])
  | runs b =>
    cases h2 : lookup_single_asin asin b with
    | some it2 =>
      obtain ⟨_, _, ha⟩ := lookup_single_asin_facts asin b it2 h2
      exact Or.inl (by simp [lookupStep, h2, ha])
    | none => exact Or.inr (by simp [lookupStep, h2])

theorem lookupAsinsAux_asins_sublist (env : Nat → ItemStep) (rnd : Nat → Rat) :
    ∀ (l : List String) (i : Nat),
      ((lookupAsinsAux env rnd i l).1.map LineItem.asin).Sublist l := by
  intro l
  induction l with
  | nil => intro i; simp [lookupAsinsAux]
  | cons asin rest ih =>
    intro i
    rcases lookupStep_asins_shape asin (env i) (rnd i) (lookupAsinsAux env rnd (i + 1) rest)
      with h | h
    · show ((lookupStep asin (env i) (rnd i) _).1.map LineItem.asin).Sublist (asin :: rest)
      rw [h]
      exact List.Sublist.cons₂ asin (ih (i + 1))
    · show ((lookupStep asin (env i) (rnd i) _).1.map LineItem.asin).Sublist (asin :: rest)
      rw [h]
      exact List.Sublist.cons asin (ih (i + 1))

/-- The identifiers of the items returned by `lookup_asins` form a
sublist of the requested identifier list. -/
theorem lookup_asins_asins_sublist (env : Nat → ItemStep) (rnd : Nat → Rat)
    (asins : List String) :
    ((lookup_asins env rnd asins).1.items.map LineItem.asin).Sublist asins :=
  List.Sublist.trans (lookupAsinsAux_asins_sublist env rnd (asins.take 10) 0)
    (List.take_sublist 10 asins)

/-- Claim C10 (refuted as stated): an embedded identifier whose lookup
silently fails yields no line item, so the returned result does not have
exactly one item per unique embedded identifier — here a page embedding
one unique identifier (twice) yields an empty result. -/
theorem embedded_asin_dedup_not_exactly_one :
    scrape_cart_url (.loaded fillerHtml [[], [], [], []]) (fun _ => .runs .raises)
        (fun _ => 3) (fun l => l.dedup) "https://www.amazon.com/gp/cart/view.html"
      = .ok (mkCartResult [])
      ∧ (scanDataAsin fillerHtml.data).dedup = ["B07ZPKN6YR"] := by
  constructor
  · have heq := scrape_eq_loaded_noitems (fun _ => .runs .raises) (fun _ => 3)
      (fun l => l.dedup) "https://www.amazon.com/gp/cart/view.html" fillerHtml
      [[], [], [], []] rfl fillerHtml_not_blocked rfl
    rw [scanDataAsin_fillerHtml] at heq
    rw [if_pos (by decide)] at heq
    rw [heq]
    exact rfl
  · rw [scanDataAsin_fillerHtml]
    decide

/-- Claim C10 as amended: when the page-scrape path finds no structured
cart elements but embedded identifiers exist, the identifiers are
deduplicated before lookup (the lookup receives the set iteration order of
the unique identifiers, which need not follow page order), and the result
has at most one line item per unique embedded identifier — its item
identifiers are pairwise distinct, drawn from the unique set, each with
quantity 1.  Exactly one per unique identifier holds only for the first 10
whose lookup does not silently fail. -/
theorem embedded_asin_dedup (env : Nat → ItemStep) (rnd : Nat → Rat)
    (so : List String → List String) (url html : String) (sels : List (List CartElement))
    (hm : extract_asins_from_cart_url url = [])
    (hcond : (listInfix "Something went wrong".data html.data
      || decide (html.data.length < 5000)) = false)
    (hsel : firstNonempty sels = [])
    (hnd : (so (scanDataAsin html.data)).Nodup) :
    ∃ r, scrape_cart_url (.loaded html sels) env rnd so url = Except.ok r
      ∧ (r.items.map LineItem.asin).Nodup
      ∧ (∀ it ∈ r.items, it.quantity = 1)
      ∧ ∀ it ∈ r.items, it.asin ∈ so (scanDataAsin html.data) := by
  have heq := scrape_eq_loaded_noitems env rnd so url html sels hm hcond hsel
  by_cases hemb : scanDataAsin html.data ≠ []
  · rw [if_pos hemb] at heq
    refine ⟨_, heq, ?_, ?_, ?_⟩
    · exact List.Nodup.sublist
        (lookup_asins_asins_sublist env rnd (so (scanDataAsin html.data))) hnd
    · intro it hit
      exact (lookupAsinsAux_item_facts env rnd _ 0 it hit).2
    · intro it hit
      exact (lookup_asins_asins_sublist env rnd (so (scanDataAsin html.data))).subset
        (List.mem_map_of_mem LineItem.asin hit)
  · rw [if_neg hemb] at heq
    exact ⟨mkCartResult [], heq, by simp [mkCartResult], by simp [mkCartResult],
      by simp [mkCartResult]⟩

/-- Witness for C10 as amended at a concrete over-threshold page with no
embedded identifiers. -/
theorem embedded_asin_dedup_witness :
    ∃ r, scrape_cart_url (.loaded plainHtml []) (fun _ => .runs .raises) (fun _ => 3)
        (fun l => l.dedup) "x" = Except.ok r
      ∧ (r.items.map LineItem.asin).Nodup
      ∧ (∀ it ∈ r.items, it.quantity = 1)
      ∧ ∀ it ∈ r.items, it.asin ∈ (fun l => l.dedup) (scanDataAsin plainHtml.data) :=
  embedded_asin_dedup (fun _ => .runs .raises) (fun _ => 3) (fun l => l.dedup) "x"
    plainHtml [] rfl plainHtml_not_blocked rfl (by simp [scanDataAsin_plainHtml])

/-- Witness for C9 as amended on a batch of two silently-failing
lookups. -/
theorem pacing_on_lookup_steps_witness :
    (lookup_asins (fun _ => .runs .raises) (fun _ => 3)
        ["B000000001", "B000000002"]).2.length
      = ((["B000000001", "B000000002"] : List String).take 10).length
      ∧ ∀ d ∈ (lookup_asins (fun _ => .runs .raises) (fun _ => 3)
          ["B000000001", "B000000002"]).2, 2 ≤ d ∧ d ≤ 5 :=
  pacing_on_lookup_steps (fun _ => .runs .raises) (fun _ => 3)
    ["B000000001", "B000000002"]
    (fun _ _ => trivial)
    (fun _ => ⟨by norm_num, by norm_num⟩)

end CartScraper
